import Mathlib

/-!
Verification of the CDQ3D evaluation core (`benchbot_eval/cdq3d.py`).

The development shallowly embeds the quality-matrix construction, cost-table
assembly, optimal-assignment consumption, TP/FP/FN classification and the
running score accumulator of the `CDQ3D` class.  Floating point arithmetic is
idealised as real arithmetic.  The spatial-overlap collaborator
(`iou_tools.IoU().dict_iou(...)[1]`) is not part of the embedded module and is
threaded through as an explicit function parameter `iou : Box → Box → ℝ`.
-/

/-- A volumetric box record: `{'centroid': ..., 'extent': ...}`. -/
structure Box where
  centroid : List ℝ
  extent : List ℝ

instance : Inhabited Box := ⟨⟨[], []⟩⟩

/-- A ground-truth object's scene-change state (`'added' | 'removed' | 'constant'`). -/
inductive ObjState
  | added
  | removed
  | constant
deriving DecidableEq

/-- `_STATE_IDS = {"added": 0, "removed": 1, "constant": 2}`. -/
def _STATE_IDS : ObjState → ℤ
  | .added => 0
  | .removed => 1
  | .constant => 2

/-- A ground-truth dictionary: class id, box, and (scene-change mode) a state. -/
structure GtInstance where
  class_id : ℕ
  centroid : List ℝ
  extent : List ℝ
  state : ObjState

instance : Inhabited GtInstance := ⟨⟨0, [], [], .added⟩⟩

/-- A detection dictionary: box, label probability distribution, and
(scene-change mode) a 3-slot state probability vector. -/
structure DetInstance where
  centroid : List ℝ
  extent : List ℝ
  prob_dist : List ℝ
  state_probs : List ℝ

instance : Inhabited DetInstance := ⟨⟨[], [], [], []⟩⟩

/-- `np.max` over a list of reals (`0` for the empty list, which the source
never feeds it). -/
noncomputable def np_max (l : List ℝ) : ℝ := (l.max?).getD 0

/-- `scipy.stats.gmean`: the geometric mean `(q1 ⬝ … ⬝ qk) ^ (1/k)` of a list of
reals; `exp(mean(log qi))` agrees with this closed form on the nonnegative
inputs the source feeds it (a zero component yields `log 0 = -∞` hence mean
`-∞` hence `exp = 0`, matching `0 ^ (1/k) = 0`). -/
noncomputable def gmean (l : List ℝ) : ℝ := l.prod ^ ((1 : ℝ) / l.length)

/-- `_vectorize_map_gts`: boxes, class labels and state ids (`-1` sentinel when
scene-change mode is off) of the ground-truth dictionaries. -/
def _vectorize_map_gts (gt_instances : List GtInstance) (scd_mode : Bool) :
    List Box × List ℕ × List ℤ :=
  (gt_instances.map fun g => ⟨g.centroid, g.extent⟩,
   gt_instances.map fun g => g.class_id,
   if scd_mode then gt_instances.map fun g => _STATE_IDS g.state
   else gt_instances.map fun _ => -1)

/-- `_vectorize_map_dets`: boxes, label probability rows performing and state
probability rows (`np.ones((d,3)) * -1` when scene-change mode is off) of the
detection dictionaries. -/
def _vectorize_map_dets (det_instances : List DetInstance) (scd_mode : Bool) :
    List Box × List (List ℝ) × List (List ℝ) :=
  (det_instances.map fun d => ⟨d.centroid, d.extent⟩,
   det_instances.map fun d => d.prob_dist,
   if scd_mode then det_instances.map fun d => d.state_probs
   else det_instances.map fun _ => [-1, -1, -1])

/-- `_calc_spatial_qual`: `spatial_quality[i, j] = IoU(gt box i, det box j)`,
with the spatial-overlap collaborator passed in as `iou`. -/
def _calc_spatial_qual (iou : Box → Box → ℝ) (gt_boxes det_boxes : List Box) :
    ℕ → ℕ → ℝ :=
  fun i j => iou (gt_boxes.getD i default) (det_boxes.getD j default)

/-- `_calc_label_qual`: `label_qual_mat[i, j] = det_prob_mat[j, gt_label_vec[i]]`. -/
def _calc_label_qual (gt_label_vec : List ℕ) (det_prob_mat : List (List ℝ)) :
    ℕ → ℕ → ℝ :=
  fun i j => (det_prob_mat.getD j []).getD (gt_label_vec.getD i 0) 0

/-- `_calc_state_change_qual`: `None` when `np.max(gt_state_vec) == -1`
(scene-change mode off), otherwise
`state_qual_mat[i, j] = det_state_prob_mat[j, gt_state_vec[i]]`. -/
def _calc_state_change_qual (gt_state_vec : List ℤ)
    (det_state_prob_mat : List (List ℝ)) : Option (ℕ → ℕ → ℝ) :=
  if gt_state_vec.max? = some (-1) then none
  else some fun i j =>
    (det_state_prob_mat.getD j []).getD (gt_state_vec.getD i 0).toNat 0

/-- `_calc_overall_qual`: the per-cell geometric mean of the stacked quality
matrices — two components without a state matrix, three with one. -/
noncomputable def _calc_overall_qual (label_qual spatial_qual : ℕ → ℕ → ℝ)
    (state_qual_mat : Option (ℕ → ℕ → ℝ)) : ℕ → ℕ → ℝ :=
  match state_qual_mat with
  | none => fun i j => gmean [label_qual i j, spatial_qual i j]
  | some s => fun i j => gmean [label_qual i j, spatial_qual i j, s i j]

/-- The four square cost tables `_gen_cost_tables` returns, as total functions:
cells beyond `max(g,d) × max(g,d)` are never consulted. -/
structure CostTables where
  overall : ℕ → ℕ → ℝ
  spatial : ℕ → ℕ → ℝ
  label : ℕ → ℕ → ℝ
  state : ℕ → ℕ → ℝ

/-- `_gen_cost_tables`: tables of ones with the top-left `g × d` block
overwritten by `1 - quality`; the state table is only overwritten in
scene-change mode. -/
noncomputable def _gen_cost_tables (iou : Box → Box → ℝ)
    (gt_instances : List GtInstance) (det_instances : List DetInstance)
    (scd_mode : Bool) : CostTables :=
  let g := gt_instances.length
  let d := det_instances.length
  let v := _vectorize_map_gts gt_instances scd_mode
  let w := _vectorize_map_dets det_instances scd_mode
  let label_qual_mat := _calc_label_qual v.2.1 w.2.1
  let spatial_qual := _calc_spatial_qual iou v.1 w.1
  let state_change_qual := _calc_state_change_qual v.2.2 w.2.2
  { overall := fun r c =>
      if r < g ∧ c < d then
        1 - _calc_overall_qual label_qual_mat spatial_qual state_change_qual r c
      else 1,
    spatial := fun r c => if r < g ∧ c < d then 1 - spatial_qual r c else 1,
    label := fun r c => if r < g ∧ c < d then 1 - label_qual_mat r c else 1,
    state :=
      if scd_mode then fun r c =>
        if r < g ∧ c < d then
          1 - (state_change_qual.getD fun _ _ => 0) r c
        else 1
      else fun _ _ => 1 }

/-- Modelled from the spec: `scipy.optimize.linear_sum_assignment`, the external
assignment-solver collaborator, is not part of the repository.  Per spec §4.3
its contract is: given an `n × n` cost matrix, return a permutation of rows to
columns minimizing the total cost; tie-breaking among equally optimal
assignments is the solver's own.  It is modelled as a choice of minimizer over
all permutations. -/
noncomputable def linear_sum_assignment {n : ℕ} (cost : Fin n → Fin n → ℝ) :
    Equiv.Perm (Fin n) :=
  Classical.choose
    (Finset.exists_min_image (Finset.univ : Finset (Equiv.Perm (Fin n)))
      (fun σ => ∑ r, cost r (σ r)) ⟨1, Finset.mem_univ 1⟩)

/-- The solver contract: the returned assignment's total cost is minimal. -/
theorem linear_sum_assignment_min {n : ℕ} (cost : Fin n → Fin n → ℝ)
    (τ : Equiv.Perm (Fin n)) :
    ∑ r, cost r (linear_sum_assignment cost r) ≤ ∑ r, cost r (τ r) :=
  (Classical.choose_spec
    (Finset.exists_min_image (Finset.univ : Finset (Equiv.Perm (Fin n)))
      (fun σ => ∑ r, cost r (σ r)) ⟨1, Finset.mem_univ 1⟩)).2 τ
    (Finset.mem_univ τ)

/-- The result dictionary of `_calc_qual_map`. -/
structure MapResult where
  overall : ℝ
  spatial : ℝ
  label : ℝ
  fp_cost : ℝ
  TP : ℕ
  FP : ℕ
  FN : ℕ
  state_change : ℝ

/-- The false-positive cost of one detection (`_calc_qual_map` lines 429-434):
geometric mean of the maximum non-background label probability and the maximum
non-constant state probability in scene-change mode, otherwise just the
maximum non-background label probability. -/
noncomputable def _fp_cost_of (scd_mode : Bool) (det : DetInstance) : ℝ :=
  if scd_mode then
    gmean [np_max det.prob_dist.dropLast, np_max det.state_probs.dropLast]
  else np_max det.prob_dist.dropLast

/-- `_calc_qual_map`: per-map evaluation.  Degenerate maps (no ground truths or
no detections) skip the solver; otherwise the optimal assignment of the overall
cost table drives the sums, the TP/FP/FN classification and the FP cost. -/
noncomputable def _calc_qual_map (iou : Box → Box → ℝ)
    (gt_instances : List GtInstance) (det_instances : List DetInstance)
    (scd_mode : Bool) : MapResult :=
  if gt_instances.length = 0 ∨ det_instances.length = 0 then
    { overall := 0, spatial := 0, label := 0,
      fp_cost :=
        if 0 < det_instances.length then
          (det_instances.map fun det => np_max det.prob_dist.dropLast).sum
        else 0,
      TP := 0, FP := det_instances.length, FN := gt_instances.length,
      state_change := 0 }
  else
    let g := gt_instances.length
    let d := det_instances.length
    let n := max g d
    let cost_tables := _gen_cost_tables iou gt_instances det_instances scd_mode
    let row_col := linear_sum_assignment fun r c : Fin n => cost_tables.overall r c
    let overall_quality_table : ℕ → ℕ → ℝ := fun r c => 1 - cost_tables.overall r c
    let spatial_quality_table : ℕ → ℕ → ℝ := fun r c => 1 - cost_tables.spatial r c
    let label_quality_table : ℕ → ℕ → ℝ := fun r c => 1 - cost_tables.label r c
    let state_change_quality_table : ℕ → ℕ → ℝ := fun r c => 1 - cost_tables.state r c
    { overall := ∑ r : Fin n, overall_quality_table r (row_col r),
      spatial := ∑ r : Fin n,
        if overall_quality_table r (row_col r) = 0 then 0
        else spatial_quality_table r (row_col r),
      label := ∑ r : Fin n,
        if overall_quality_table r (row_col r) = 0 then 0
        else label_quality_table r (row_col r),
      fp_cost := ∑ r ∈ Finset.univ.filter
          (fun r : Fin n =>
            ¬0 < overall_quality_table r (row_col r) ∧ (row_col r : ℕ) < d),
        _fp_cost_of scd_mode (det_instances.getD (row_col r) default),
      TP := (Finset.univ.filter
        (fun r : Fin n => 0 < overall_quality_table r (row_col r))).card,
      FP := (Finset.univ.filter
        (fun r : Fin n =>
          ¬0 < overall_quality_table r (row_col r) ∧ (row_col r : ℕ) < d)).card,
      FN := (Finset.univ.filter
        (fun r : Fin n =>
          ¬0 < overall_quality_table r (row_col r) ∧ (r : ℕ) < g)).card,
      state_change := ∑ r : Fin n,
        if overall_quality_table r (row_col r) = 0 then 0
        else state_change_quality_table r (row_col r) }

/-- The `CDQ3D` accumulator's state. -/
structure CDQ3D where
  _tot_overall_quality : ℝ
  _tot_spatial_quality : ℝ
  _tot_label_quality : ℝ
  _tot_fp_cost : ℝ
  _tot_TP : ℕ
  _tot_FP : ℕ
  _tot_FN : ℕ
  _tot_state_quality : ℝ
  scd_mode : Bool

/-- `CDQ3D.__init__(scd_mode)`. -/
def CDQ3D.init (scd_mode : Bool) : CDQ3D :=
  ⟨0, 0, 0, 0, 0, 0, 0, 0, scd_mode⟩

/-- `CDQ3D.reset`: zero every running total, keep the mode. -/
def CDQ3D.reset (self : CDQ3D) : CDQ3D :=
  { self with
    _tot_overall_quality := 0, _tot_spatial_quality := 0,
    _tot_label_quality := 0, _tot_fp_cost := 0,
    _tot_TP := 0, _tot_FP := 0, _tot_FN := 0, _tot_state_quality := 0 }

/-- `CDQ3D.add_map_eval`: evaluate one map and add every field into the totals. -/
noncomputable def CDQ3D.add_map_eval (iou : Box → Box → ℝ) (self : CDQ3D)
    (gt_instances : List GtInstance) (det_instances : List DetInstance) : CDQ3D :=
  let results := _calc_qual_map iou gt_instances det_instances self.scd_mode
  { self with
    _tot_overall_quality := self._tot_overall_quality + results.overall,
    _tot_spatial_quality := self._tot_spatial_quality + results.spatial,
    _tot_label_quality := self._tot_label_quality + results.label,
    _tot_fp_cost := self._tot_fp_cost + results.fp_cost,
    _tot_TP := self._tot_TP + results.TP,
    _tot_FP := self._tot_FP + results.FP,
    _tot_FN := self._tot_FN + results.FN,
    _tot_state_quality := self._tot_state_quality + results.state_change }

/-- `CDQ3D.get_current_score`: total overall quality over `TP + fp_cost + FN`,
`0.0` when that denominator is zero. -/
noncomputable def CDQ3D.get_current_score (self : CDQ3D) : ℝ :=
  if (self._tot_TP : ℝ) + self._tot_fp_cost + (self._tot_FN : ℝ) = 0 then 0
  else self._tot_overall_quality /
    ((self._tot_TP : ℝ) + self._tot_fp_cost + (self._tot_FN : ℝ))

/-- `CDQ3D._get_map_evals`: evaluate one `(gt, det)` tuple with the stored mode. -/
noncomputable def CDQ3D._get_map_evals (iou : Box → Box → ℝ) (self : CDQ3D)
    (parameters : List GtInstance × List DetInstance) : MapResult :=
  _calc_qual_map iou parameters.1 parameters.2 self.scd_mode

/-- `CDQ3D.score`: reset, accumulate every map of the list in order (the source
inlines the same eight additions `add_map_eval` performs), return the final
state and `get_current_score`. -/
noncomputable def CDQ3D.score (iou : Box → Box → ℝ) (self : CDQ3D)
    (param_lists : List (List GtInstance × List DetInstance)) : CDQ3D × ℝ :=
  let final := param_lists.foldl
    (fun acc map_params =>
      let map_results := acc._get_map_evals iou map_params
      { acc with
        _tot_overall_quality := acc._tot_overall_quality + map_results.overall,
        _tot_spatial_quality := acc._tot_spatial_quality + map_results.spatial,
        _tot_label_quality := acc._tot_label_quality + map_results.label,
        _tot_fp_cost := acc._tot_fp_cost + map_results.fp_cost,
        _tot_TP := acc._tot_TP + map_results.TP,
        _tot_FP := acc._tot_FP + map_results.FP,
        _tot_FN := acc._tot_FN + map_results.FN,
        _tot_state_quality := acc._tot_state_quality + map_results.state_change })
    self.reset
  (final, final.get_current_score)

/-- `CDQ3D.get_avg_spatial_score`: spatial sum over TP count, `0.0` when no TP. -/
noncomputable def CDQ3D.get_avg_spatial_score (self : CDQ3D) : ℝ :=
  if 0 < self._tot_TP then self._tot_spatial_quality / (self._tot_TP : ℝ) else 0

/-- `CDQ3D.get_avg_label_score`: label sum over TP count, `0.0` when no TP. -/
noncomputable def CDQ3D.get_avg_label_score (self : CDQ3D) : ℝ :=
  if 0 < self._tot_TP then self._tot_label_quality / (self._tot_TP : ℝ) else 0

/-- `CDQ3D.get_avg_state_score`: state sum over TP count, `0.0` when no TP. -/
noncomputable def CDQ3D.get_avg_state_score (self : CDQ3D) : ℝ :=
  if 0 < self._tot_TP then self._tot_state_quality / (self._tot_TP : ℝ) else 0

/-- `CDQ3D.get_avg_overall_quality_score`: overall sum over TP count, `0.0`
when no TP. -/
noncomputable def CDQ3D.get_avg_overall_quality_score (self : CDQ3D) : ℝ :=
  if 0 < self._tot_TP then self._tot_overall_quality / (self._tot_TP : ℝ) else 0

/-- `CDQ3D.get_avg_fp_score`: `(FP - fp_cost) / FP`, `1.0` when no FP. -/
noncomputable def CDQ3D.get_avg_fp_score (self : CDQ3D) : ℝ :=
  if 0 < self._tot_FP then
    ((self._tot_FP : ℝ) - self._tot_fp_cost) / (self._tot_FP : ℝ)
  else 1

/-- `CDQ3D.get_assignment_counts`: the `(TP, FP, FN)` triple. -/
def CDQ3D.get_assignment_counts (self : CDQ3D) : ℕ × ℕ × ℕ :=
  (self._tot_TP, self._tot_FP, self._tot_FN)

/-! ### Helper lemmas about the geometric mean and entry bounds -/

theorem gmean_pair (a b : ℝ) : gmean [a, b] = (a * b) ^ ((1 : ℝ) / 2) := by
  simp [gmean]

theorem gmean_triple (a b c : ℝ) :
    gmean [a, b, c] = (a * b * c) ^ ((1 : ℝ) / 3) := by
  simp [gmean, mul_assoc]

theorem list_prod_mem_unit (l : List ℝ) (h : ∀ x ∈ l, 0 ≤ x ∧ x ≤ 1) :
    0 ≤ l.prod ∧ l.prod ≤ 1 := by
  induction l with
  | nil => simp
  | cons a t ih =>
    have ha := h a (List.mem_cons_self a t)
    have ht := ih fun x hx => h x (List.mem_cons_of_mem a hx)
    rw [List.prod_cons]
    exact ⟨mul_nonneg ha.1 ht.1, mul_le_one₀ ha.2 ht.1 ht.2⟩

theorem gmean_mem_unit (l : List ℝ) (h : ∀ x ∈ l, 0 ≤ x ∧ x ≤ 1) :
    0 ≤ gmean l ∧ gmean l ≤ 1 := by
  obtain ⟨h0, h1⟩ := list_prod_mem_unit l h
  exact ⟨Real.rpow_nonneg h0 _, Real.rpow_le_one h0 h1 (by positivity)⟩

theorem gmean_nonneg (l : List ℝ) (h : ∀ x ∈ l, 0 ≤ x) : 0 ≤ gmean l :=
  Real.rpow_nonneg (List.prod_nonneg h) _

/-- An element fetched by `getD` with default `0` from a row of a list of rows
whose entries all lie in `[0,1]` lies in `[0,1]` itself. -/
theorem getD_getD_mem_unit (L : List (List ℝ))
    (h : ∀ l ∈ L, ∀ p ∈ l, 0 ≤ p ∧ p ≤ 1) (j k : ℕ) :
    0 ≤ (L.getD j []).getD k 0 ∧ (L.getD j []).getD k 0 ≤ 1 := by
  have hrow : ∀ p ∈ L.getD j [], 0 ≤ p ∧ p ≤ 1 := by
    by_cases hj : j < L.length
    · rw [List.getD_eq_getElem L [] hj]
      exact h L[j] (List.getElem_mem hj)
    · rw [List.getD_eq_default L [] (le_of_not_lt hj)]
      intro p hp
      exact absurd hp (List.not_mem_nil p)
  by_cases hk : k < (L.getD j []).length
  · rw [List.getD_eq_getElem _ 0 hk]
    exact hrow _ (List.getElem_mem hk)
  · rw [List.getD_eq_default _ 0 (le_of_not_lt hk)]
    norm_num

/-! ### Helper lemmas about the state-quality option -/

theorem foldl_max_const_neg_one (l : List GtInstance) :
    (l.map fun _ => (-1 : ℤ)).foldl max (-1) = -1 := by
  induction l with
  | nil => rfl
  | cons a t ih => simpa using ih

/-- With scene-change mode off the sentinel state ids of a non-empty map have
maximum `-1`, so `_calc_state_change_qual` returns `None`. -/
theorem state_change_qual_eq_none (gt_instances : List GtInstance)
    (w : List (List ℝ)) (h : gt_instances ≠ []) :
    _calc_state_change_qual (_vectorize_map_gts gt_instances false).2.2 w = none := by
  rw [_calc_state_change_qual, if_pos]
  cases gt_instances with
  | nil => exact absurd rfl h
  | cons a t =>
    show ((a :: t).map fun _ => (-1 : ℤ)).max? = some (-1)
    rw [List.map_cons]
    show some ((t.map fun _ => (-1 : ℤ)).foldl max (-1)) = some (-1)
    rw [foldl_max_const_neg_one]

/-- With scene-change mode on, a non-empty map's state ids all come from
`_STATE_IDS`, whose values are nonnegative, so `_calc_state_change_qual`
returns an actual matrix. -/
theorem state_change_qual_eq_some (gt_instances : List GtInstance)
    (w : List (List ℝ)) (h : gt_instances ≠ []) :
    _calc_state_change_qual (_vectorize_map_gts gt_instances true).2.2 w =
      some fun i j =>
        (w.getD j []).getD
          (((gt_instances.map fun g => _STATE_IDS g.state).getD i 0).toNat) 0 := by
  rw [_calc_state_change_qual, if_neg]
  · rfl
  · show ¬(gt_instances.map fun g => _STATE_IDS g.state).max? = some (-1)
    intro hmax
    have hmem := List.max?_mem (fun a b => max_choice a b) hmax
    rw [List.mem_map] at hmem
    obtain ⟨g, -, hg⟩ := hmem
    cases hst : g.state <;> rw [hst] at hg <;> simp [_STATE_IDS] at hg

/-! ### The quality matrices read back from the cost tables -/

theorem gen_cost_tables_overall (iou : Box → Box → ℝ)
    (gt_instances : List GtInstance) (det_instances : List DetInstance)
    (scd_mode : Bool) :
    (_gen_cost_tables iou gt_instances det_instances scd_mode).overall =
      fun r c =>
        if r < gt_instances.length ∧ c < det_instances.length then
          1 - _calc_overall_qual
            (_calc_label_qual (_vectorize_map_gts gt_instances scd_mode).2.1
              (_vectorize_map_dets det_instances scd_mode).2.1)
            (_calc_spatial_qual iou (_vectorize_map_gts gt_instances scd_mode).1
              (_vectorize_map_dets det_instances scd_mode).1)
            (_calc_state_change_qual (_vectorize_map_gts gt_instances scd_mode).2.2
              (_vectorize_map_dets det_instances scd_mode).2.2) r c
        else 1 := rfl

theorem gen_cost_tables_spatial (iou : Box → Box → ℝ)
    (gt_instances : List GtInstance) (det_instances : List DetInstance)
    (scd_mode : Bool) :
    (_gen_cost_tables iou gt_instances det_instances scd_mode).spatial =
      fun r c =>
        if r < gt_instances.length ∧ c < det_instances.length then
          1 - _calc_spatial_qual iou (_vectorize_map_gts gt_instances scd_mode).1
            (_vectorize_map_dets det_instances scd_mode).1 r c
        else 1 := rfl

theorem gen_cost_tables_label (iou : Box → Box → ℝ)
    (gt_instances : List GtInstance) (det_instances : List DetInstance)
    (scd_mode : Bool) :
    (_gen_cost_tables iou gt_instances det_instances scd_mode).label =
      fun r c =>
        if r < gt_instances.length ∧ c < det_instances.length then
          1 - _calc_label_qual (_vectorize_map_gts gt_instances scd_mode).2.1
            (_vectorize_map_dets det_instances scd_mode).2.1 r c
        else 1 := rfl

theorem gen_cost_tables_state_false (iou : Box → Box → ℝ)
    (gt_instances : List GtInstance) (det_instances : List DetInstance) :
    (_gen_cost_tables iou gt_instances det_instances false).state =
      fun _ _ => 1 := rfl

/-- The overall quality of each padded pair, directly from the quality
matrices: the real `g × d` block carries the geometric-mean overall quality,
every phantom pair carries quality `0`. -/
noncomputable def padded_overall_qual (iou : Box → Box → ℝ)
    (gt_instances : List GtInstance) (det_instances : List DetInstance)
    (scd_mode : Bool) : ℕ → ℕ → ℝ :=
  fun r c =>
    if r < gt_instances.length ∧ c < det_instances.length then
      _calc_overall_qual
        (_calc_label_qual (_vectorize_map_gts gt_instances scd_mode).2.1
          (_vectorize_map_dets det_instances scd_mode).2.1)
        (_calc_spatial_qual iou (_vectorize_map_gts gt_instances scd_mode).1
          (_vectorize_map_dets det_instances scd_mode).1)
        (_calc_state_change_qual (_vectorize_map_gts gt_instances scd_mode).2.2
          (_vectorize_map_dets det_instances scd_mode).2.2) r c
    else 0

/-- Quality-from-cost: `1 - overall cost` is exactly the padded overall
quality. -/
theorem one_sub_overall_cost (iou : Box → Box → ℝ)
    (gt_instances : List GtInstance) (det_instances : List DetInstance)
    (scd_mode : Bool) (r c : ℕ) :
    1 - (_gen_cost_tables iou gt_instances det_instances scd_mode).overall r c =
      padded_overall_qual iou gt_instances det_instances scd_mode r c := by
  by_cases h : r < gt_instances.length ∧ c < det_instances.length
  · simp only [gen_cost_tables_overall, padded_overall_qual, if_pos h, sub_sub_cancel]
  · simp only [gen_cost_tables_overall, padded_overall_qual, if_neg h, sub_self]

theorem card_filter_coe_lt (n g : ℕ) (h : g ≤ n) :
    ((Finset.univ : Finset (Fin n)).filter fun r : Fin n => (r : ℕ) < g).card = g := by
  apply Finset.card_eq_of_bijective (fun i hi => ⟨i, lt_of_lt_of_le hi h⟩)
  · intro a ha
    rw [Finset.mem_filter] at ha
    exact ⟨a, ha.2, Fin.ext rfl⟩
  · intro i hi
    rw [Finset.mem_filter]
    exact ⟨Finset.mem_univ _, hi⟩
  · intro i j hi hj hij
    exact Fin.mk.inj_iff.mp hij

/-! ### C4: degenerate maps -/

/-- C4: a map with no ground truths or no detections skips the assignment
solver and returns zero overall/spatial/label/state sums, `TP = 0`, `FP = d`,
`FN = g`, and an FP cost equal to the sum over all detections of the maximum
label probability excluding the final background class — identically in
scene-change and normal mode. -/
theorem degenerate_map_eval (iou : Box → Box → ℝ)
    (gt_instances : List GtInstance) (det_instances : List DetInstance)
    (scd_mode : Bool)
    (h : gt_instances.length = 0 ∨ det_instances.length = 0) :
    _calc_qual_map iou gt_instances det_instances scd_mode =
      { overall := 0, spatial := 0, label := 0,
        fp_cost :=
          (det_instances.map fun det => np_max det.prob_dist.dropLast).sum,
        TP := 0, FP := det_instances.length, FN := gt_instances.length,
        state_change := 0 } := by
  rw [_calc_qual_map, if_pos h]
  by_cases hd : 0 < det_instances.length
  · rw [if_pos hd]
  · rw [if_neg hd]
    obtain rfl : det_instances = [] :=
      List.length_eq_zero.mp (Nat.eq_zero_of_not_pos hd)
    simp

/-- C4 witness: one detection with label probabilities `[0.7, 0.3]` against an
empty ground-truth map. -/
theorem degenerate_map_eval_witness :
    _calc_qual_map (fun _ _ => 1) [] [⟨[], [], [0.7, 0.3], []⟩] false =
      { overall := 0, spatial := 0, label := 0,
        fp_cost :=
          (([⟨[], [], [0.7, 0.3], []⟩] : List DetInstance).map
            fun det => np_max det.prob_dist.dropLast).sum,
        TP := 0, FP := 1, FN := 0, state_change := 0 } :=
  degenerate_map_eval (fun _ _ => 1) [] [⟨[], [], [0.7, 0.3], []⟩] false
    (Or.inl rfl)

/-! ### C5: the overall quality is a geometric mean -/

/-- C5: the overall quality of a pair is the 2-way geometric mean
`(label ⬝ spatial) ^ (1/2)` when the state matrix is absent and the 3-way
geometric mean `(label ⬝ spatial ⬝ state) ^ (1/3)` when it is present; a zero
component always forces overall quality 0 (no degenerate-logarithm error);
and on a non-empty map the state matrix is absent exactly when scene-change
mode is disabled. -/
theorem overall_qual_is_gmean (label_qual spatial_qual s : ℕ → ℕ → ℝ)
    (gt_instances : List GtInstance) (det_instances : List DetInstance)
    (i j : ℕ) :
    (_calc_overall_qual label_qual spatial_qual none i j =
        (label_qual i j * spatial_qual i j) ^ ((1 : ℝ) / 2)) ∧
    (_calc_overall_qual label_qual spatial_qual (some s) i j =
        (label_qual i j * spatial_qual i j * s i j) ^ ((1 : ℝ) / 3)) ∧
    (label_qual i j = 0 ∨ spatial_qual i j = 0 →
        _calc_overall_qual label_qual spatial_qual none i j = 0) ∧
    (label_qual i j = 0 ∨ spatial_qual i j = 0 ∨ s i j = 0 →
        _calc_overall_qual label_qual spatial_qual (some s) i j = 0) ∧
    (gt_instances ≠ [] →
        _calc_state_change_qual (_vectorize_map_gts gt_instances false).2.2
          (_vectorize_map_dets det_instances false).2.2 = none) ∧
    (gt_instances ≠ [] →
        (_calc_state_change_qual (_vectorize_map_gts gt_instances true).2.2
          (_vectorize_map_dets det_instances true).2.2).isSome = true) := by
  refine ⟨gmean_pair _ _, gmean_triple _ _ _, ?_, ?_, ?_, ?_⟩
  · intro h
    show gmean [label_qual i j, spatial_qual i j] = 0
    rw [gmean_pair]
    rcases h with h | h <;> rw [h]
    · rw [zero_mul]
      exact Real.zero_rpow (by norm_num)
    · rw [mul_zero]
      exact Real.zero_rpow (by norm_num)
  · intro h
    show gmean [label_qual i j, spatial_qual i j, s i j] = 0
    rw [gmean_triple]
    rcases h with h | h | h <;> rw [h]
    · rw [zero_mul, zero_mul]
      exact Real.zero_rpow (by norm_num)
    · rw [mul_zero, zero_mul]
      exact Real.zero_rpow (by norm_num)
    · rw [mul_zero]
      exact Real.zero_rpow (by norm_num)
  · exact state_change_qual_eq_none _ _
  · intro h
    rw [state_change_qual_eq_some _ _ h]
    rfl

/-! ### C7: guarded quotient getters -/

/-- C7: every score getter is the stated quotient guarded against division by
zero: `get_current_score` is `overall / (TP + fp_cost + FN)` and `0.0` when
that denominator is `0` (in particular on a fresh accumulator with zero maps
added); the four per-TP average getters are `sum / TP` and `0.0` when
`TP = 0`; `get_avg_fp_score` is `(FP − fp_cost) / FP` and `1.0` when `FP = 0`. -/
theorem getters_guarded_quotients (scd_mode : Bool) (self : CDQ3D) :
    ((self._tot_TP : ℝ) + self._tot_fp_cost + (self._tot_FN : ℝ) = 0 →
      self.get_current_score = 0) ∧
    ((self._tot_TP : ℝ) + self._tot_fp_cost + (self._tot_FN : ℝ) ≠ 0 →
      self.get_current_score =
        self._tot_overall_quality /
          ((self._tot_TP : ℝ) + self._tot_fp_cost + (self._tot_FN : ℝ))) ∧
    (CDQ3D.init scd_mode).get_current_score = 0 ∧
    (self._tot_TP = 0 →
      self.get_avg_spatial_score = 0 ∧ self.get_avg_label_score = 0 ∧
      self.get_avg_state_score = 0 ∧ self.get_avg_overall_quality_score = 0) ∧
    (self._tot_TP ≠ 0 →
      self.get_avg_spatial_score = self._tot_spatial_quality / (self._tot_TP : ℝ) ∧
      self.get_avg_label_score = self._tot_label_quality / (self._tot_TP : ℝ) ∧
      self.get_avg_state_score = self._tot_state_quality / (self._tot_TP : ℝ) ∧
      self.get_avg_overall_quality_score =
        self._tot_overall_quality / (self._tot_TP : ℝ)) ∧
    (self._tot_FP = 0 → self.get_avg_fp_score = 1) ∧
    (self._tot_FP ≠ 0 →
      self.get_avg_fp_score =
        ((self._tot_FP : ℝ) - self._tot_fp_cost) / (self._tot_FP : ℝ)) := by
  refine ⟨fun h => ?_, fun h => ?_, ?_, fun h => ?_, fun h => ?_, fun h => ?_,
    fun h => ?_⟩
  · rw [CDQ3D.get_current_score, if_pos h]
  · rw [CDQ3D.get_current_score, if_neg h]
  · simp [CDQ3D.get_current_score, CDQ3D.init]
  · constructor
    · rw [CDQ3D.get_avg_spatial_score, if_neg (by rw [h]; exact lt_irrefl 0)]
    constructor
    · rw [CDQ3D.get_avg_label_score, if_neg (by rw [h]; exact lt_irrefl 0)]
    constructor
    · rw [CDQ3D.get_avg_state_score, if_neg (by rw [h]; exact lt_irrefl 0)]
    · rw [CDQ3D.get_avg_overall_quality_score,
        if_neg (by rw [h]; exact lt_irrefl 0)]
  · have hp := Nat.pos_of_ne_zero h
    exact ⟨by rw [CDQ3D.get_avg_spatial_score, if_pos hp],
      by rw [CDQ3D.get_avg_label_score, if_pos hp],
      by rw [CDQ3D.get_avg_state_score, if_pos hp],
      by rw [CDQ3D.get_avg_overall_quality_score, if_pos hp]⟩
  · rw [CDQ3D.get_avg_fp_score, if_neg (by rw [h]; exact lt_irrefl 0)]
  · rw [CDQ3D.get_avg_fp_score, if_pos (Nat.pos_of_ne_zero h)]

/-! ### C8: `score` is reset-then-accumulate -/

theorem foldl_add_map_eval_scd_mode (iou : Box → Box → ℝ)
    (param_lists : List (List GtInstance × List DetInstance)) :
    ∀ c : CDQ3D,
      (param_lists.foldl (fun acc p => acc.add_map_eval iou p.1 p.2) c).scd_mode
        = c.scd_mode := by
  induction param_lists with
  | nil => intro c; rfl
  | cons a t ih =>
    intro c
    rw [List.foldl_cons, ih]
    rfl

/-- C8: `score` returns exactly the state and value obtained by `reset`
followed by `add_map_eval` on every `(gt, det)` pair in order followed by
`get_current_score`; consequently running `score` twice in succession on the
same list returns the identical pair. -/
theorem score_is_reset_then_adds (iou : Box → Box → ℝ) (self : CDQ3D)
    (param_lists : List (List GtInstance × List DetInstance)) :
    (self.score iou param_lists =
      (param_lists.foldl (fun acc p => acc.add_map_eval iou p.1 p.2) self.reset,
       (param_lists.foldl (fun acc p => acc.add_map_eval iou p.1 p.2)
         self.reset).get_current_score)) ∧
    ((self.score iou param_lists).1).score iou param_lists
      = self.score iou param_lists := by
  have score_eq : ∀ c : CDQ3D, c.score iou param_lists =
      (param_lists.foldl (fun acc p => acc.add_map_eval iou p.1 p.2) c.reset,
       (param_lists.foldl (fun acc p => acc.add_map_eval iou p.1 p.2)
         c.reset).get_current_score) := fun c => rfl
  refine ⟨score_eq self, ?_⟩
  have hreset : ∀ c : CDQ3D, c.scd_mode = self.scd_mode → c.reset = self.reset := by
    intro c hc
    show (⟨0, 0, 0, 0, 0, 0, 0, 0, c.scd_mode⟩ : CDQ3D)
      = ⟨0, 0, 0, 0, 0, 0, 0, 0, self.scd_mode⟩
    rw [hc]
  rw [score_eq self]
  rw [score_eq]
  have h1 : ((param_lists.foldl (fun acc p => acc.add_map_eval iou p.1 p.2)
        self.reset,
      (param_lists.foldl (fun acc p => acc.add_map_eval iou p.1 p.2)
        self.reset).get_current_score).1).reset = self.reset := by
    apply hreset
    show (param_lists.foldl (fun acc p => acc.add_map_eval iou p.1 p.2)
      self.reset).scd_mode = self.scd_mode
    rw [foldl_add_map_eval_scd_mode]
    rfl
  rw [h1]

/-! ### C10: no state-quality contribution without scene-change mode -/

/-- With scene-change mode off, the state cost table is never overwritten, so
every map's state-change sum is zero. -/
theorem state_change_zero_no_scd (iou : Box → Box → ℝ)
    (gt_instances : List GtInstance) (det_instances : List DetInstance) :
    (_calc_qual_map iou gt_instances det_instances false).state_change = 0 := by
  by_cases h : gt_instances.length = 0 ∨ det_instances.length = 0
  · rw [_calc_qual_map, if_pos h]
  · simp only [_calc_qual_map]
    rw [if_neg h]
    simp only [gen_cost_tables_state_false, sub_self, ite_self,
      Finset.sum_const_zero]

theorem add_map_eval_keeps_state_zero (iou : Box → Box → ℝ) (c : CDQ3D)
    (gt_instances : List GtInstance) (det_instances : List DetInstance)
    (h : c.scd_mode = false) :
    (c.add_map_eval iou gt_instances det_instances).scd_mode = false ∧
    (c.add_map_eval iou gt_instances det_instances)._tot_state_quality
      = c._tot_state_quality := by
  refine ⟨h, ?_⟩
  show c._tot_state_quality +
    (_calc_qual_map iou gt_instances det_instances c.scd_mode).state_change = _
  rw [h, state_change_zero_no_scd, add_zero]

theorem foldl_add_map_eval_state_zero (iou : Box → Box → ℝ)
    (param_lists : List (List GtInstance × List DetInstance)) :
    ∀ c : CDQ3D, c.scd_mode = false →
      (param_lists.foldl (fun acc p => acc.add_map_eval iou p.1 p.2)
        c)._tot_state_quality = c._tot_state_quality := by
  induction param_lists with
  | nil => intro c _; rfl
  | cons a t ih =>
    intro c hc
    rw [List.foldl_cons,
      ih _ (add_map_eval_keeps_state_zero iou c a.1 a.2 hc).1,
      (add_map_eval_keeps_state_zero iou c a.1 a.2 hc).2]

/-- One driver call against the accumulator: `add_map_eval`, `score` (keeping
the returned state), or `reset`. -/
inductive CDQOp
  | add (gt_instances : List GtInstance) (det_instances : List DetInstance)
  | run_score (param_lists : List (List GtInstance × List DetInstance))
  | run_reset

/-- Apply one driver call to the accumulator state. -/
noncomputable def CDQ3D.apply_op (iou : Box → Box → ℝ) (self : CDQ3D) :
    CDQOp → CDQ3D
  | .add gt_instances det_instances =>
      self.add_map_eval iou gt_instances det_instances
  | .run_score param_lists => (self.score iou param_lists).1
  | .run_reset => self.reset

theorem apply_op_keeps_state_zero (iou : Box → Box → ℝ) (c : CDQ3D)
    (op : CDQOp) (h1 : c.scd_mode = false) (h2 : c._tot_state_quality = 0) :
    (c.apply_op iou op).scd_mode = false ∧
    (c.apply_op iou op)._tot_state_quality = 0 := by
  cases op with
  | add gt_instances det_instances =>
    obtain ⟨ha, hb⟩ := add_map_eval_keeps_state_zero iou c gt_instances
      det_instances h1
    exact ⟨ha, by rw [CDQ3D.apply_op, hb, h2]⟩
  | run_score param_lists =>
    constructor
    · show (param_lists.foldl (fun acc p => acc.add_map_eval iou p.1 p.2)
        c.reset).scd_mode = false
      rw [foldl_add_map_eval_scd_mode]
      exact h1
    · show (param_lists.foldl (fun acc p => acc.add_map_eval iou p.1 p.2)
        c.reset)._tot_state_quality = 0
      rw [foldl_add_map_eval_state_zero iou param_lists c.reset h1]
      rfl
  | run_reset => exact ⟨h1, rfl⟩

/-- C10: with scene-change mode disabled, every map's `state_change`
contribution is exactly `0`, and `get_avg_state_score` returns `0.0` after any
sequence of `add_map_eval` / `score` / `reset` calls from a fresh accumulator —
not only when `TP = 0`. -/
theorem state_score_zero_without_scd (iou : Box → Box → ℝ)
    (gt_instances : List GtInstance) (det_instances : List DetInstance)
    (ops : List CDQOp) :
    (_calc_qual_map iou gt_instances det_instances false).state_change = 0 ∧
    (ops.foldl (fun c op => c.apply_op iou op)
      (CDQ3D.init false)).get_avg_state_score = 0 := by
  refine ⟨state_change_zero_no_scd iou _ _, ?_⟩
  have key : ∀ (l : List CDQOp) (c : CDQ3D), c.scd_mode = false →
      c._tot_state_quality = 0 →
      (l.foldl (fun c op => c.apply_op iou op) c).scd_mode = false ∧
      (l.foldl (fun c op => c.apply_op iou op) c)._tot_state_quality = 0 := by
    intro l
    induction l with
    | nil => intro c h1 h2; exact ⟨h1, h2⟩
    | cons a t ih =>
      intro c h1 h2
      obtain ⟨ha, hb⟩ := apply_op_keeps_state_zero iou c a h1 h2
      rw [List.foldl_cons]
      exact ih _ ha hb
  obtain ⟨-, hst⟩ := key ops (CDQ3D.init false) rfl rfl
  rw [CDQ3D.get_avg_state_score, hst]
  split <;> simp

/-! ### C1/C2/C3/C6: the non-degenerate branch of `_calc_qual_map` -/

theorem calc_qual_map_pos_eq (iou : Box → Box → ℝ)
    (gt_instances : List GtInstance) (det_instances : List DetInstance)
    (scd_mode : Bool)
    (hne : ¬(gt_instances.length = 0 ∨ det_instances.length = 0)) :
    _calc_qual_map iou gt_instances det_instances scd_mode =
      (let n := max gt_instances.length det_instances.length
       let cost_tables := _gen_cost_tables iou gt_instances det_instances scd_mode
       let row_col := linear_sum_assignment fun r c : Fin n => cost_tables.overall r c
       let overall_quality_table : ℕ → ℕ → ℝ := fun r c => 1 - cost_tables.overall r c
       let spatial_quality_table : ℕ → ℕ → ℝ := fun r c => 1 - cost_tables.spatial r c
       let label_quality_table : ℕ → ℕ → ℝ := fun r c => 1 - cost_tables.label r c
       let state_change_quality_table : ℕ → ℕ → ℝ := fun r c => 1 - cost_tables.state r c
       { overall := ∑ r : Fin n, overall_quality_table r (row_col r),
         spatial := ∑ r : Fin n,
           if overall_quality_table r (row_col r) = 0 then 0
           else spatial_quality_table r (row_col r),
         label := ∑ r : Fin n,
           if overall_quality_table r (row_col r) = 0 then 0
           else label_quality_table r (row_col r),
         fp_cost := ∑ r ∈ Finset.univ.filter
             (fun r : Fin n =>
               ¬0 < overall_quality_table r (row_col r) ∧
                 (row_col r : ℕ) < det_instances.length),
           _fp_cost_of scd_mode (det_instances.getD (row_col r) default),
         TP := (Finset.univ.filter
           (fun r : Fin n => 0 < overall_quality_table r (row_col r))).card,
         FP := (Finset.univ.filter
           (fun r : Fin n =>
             ¬0 < overall_quality_table r (row_col r) ∧
               (row_col r : ℕ) < det_instances.length)).card,
         FN := (Finset.univ.filter
           (fun r : Fin n =>
             ¬0 < overall_quality_table r (row_col r) ∧
               (r : ℕ) < gt_instances.length)).card,
         state_change := ∑ r : Fin n,
           if overall_quality_table r (row_col r) = 0 then 0
           else state_change_quality_table r (row_col r) } : MapResult) := by
  rw [_calc_qual_map, if_neg hne]

/-- C1: for a map with ground truths and detections, the returned 'overall'
sum equals the maximum, over all one-to-one matchings between the rows and
columns of the padded table, of the sum of pairwise overall qualities (real
pairs carry the geometric-mean overall quality, phantom pairs quality 0); in
particular, when a cross pairing has strictly higher total quality than the
identity pairing, the cross pairing is the one whose total is returned. -/
theorem overall_is_max_matching (iou : Box → Box → ℝ)
    (gt_instances : List GtInstance) (det_instances : List DetInstance)
    (scd_mode : Bool) (hg : 0 < gt_instances.length)
    (hd : 0 < det_instances.length) :
    (_calc_qual_map iou gt_instances det_instances scd_mode).overall =
      Finset.univ.sup' Finset.univ_nonempty
        (fun σ : Equiv.Perm
            (Fin (max gt_instances.length det_instances.length)) =>
          ∑ r : Fin (max gt_instances.length det_instances.length),
            padded_overall_qual iou gt_instances det_instances scd_mode
              (r : ℕ) ((σ r : ℕ))) := by
  have hne : ¬(gt_instances.length = 0 ∨ det_instances.length = 0) := by
    push_neg
    exact ⟨Nat.pos_iff_ne_zero.mp hg, Nat.pos_iff_ne_zero.mp hd⟩
  rw [calc_qual_map_pos_eq iou gt_instances det_instances scd_mode hne]
  show (∑ r : Fin (max gt_instances.length det_instances.length),
      (1 - (_gen_cost_tables iou gt_instances det_instances scd_mode).overall r
        ((linear_sum_assignment fun r c :
            Fin (max gt_instances.length det_instances.length) =>
          (_gen_cost_tables iou gt_instances det_instances scd_mode).overall
            r c) r))) = _
  set n := max gt_instances.length det_instances.length with hn
  set T := _gen_cost_tables iou gt_instances det_instances scd_mode with hT
  set σ := linear_sum_assignment fun r c : Fin n => T.overall r c with hσ
  have hsum : ∀ τ : Equiv.Perm (Fin n),
      ∑ r : Fin n, padded_overall_qual iou gt_instances det_instances scd_mode
          (r : ℕ) ((τ r : ℕ))
        = (n : ℝ) - ∑ r : Fin n, T.overall r (τ r) := by
    intro τ
    rw [Finset.sum_congr rfl
      (fun (r : Fin n) _ => (one_sub_overall_cost iou gt_instances
        det_instances scd_mode (r : ℕ) ((τ r : ℕ))).symm)]
    rw [Finset.sum_sub_distrib]
    congr 1
    rw [Finset.sum_const, Finset.card_univ, Fintype.card_fin, nsmul_eq_mul,
      mul_one]
  have hopt : ∀ τ : Equiv.Perm (Fin n),
      ∑ r : Fin n, padded_overall_qual iou gt_instances det_instances scd_mode
          (r : ℕ) ((τ r : ℕ))
        ≤ ∑ r : Fin n, padded_overall_qual iou gt_instances det_instances
            scd_mode (r : ℕ) ((σ r : ℕ)) := by
    intro τ
    rw [hsum τ, hsum σ]
    have hmin := linear_sum_assignment_min (fun r c : Fin n => T.overall r c) τ
    rw [← hσ] at hmin
    linarith
  rw [Finset.sum_congr rfl
    (fun (r : Fin n) _ => one_sub_overall_cost iou gt_instances det_instances
      scd_mode (r : ℕ) ((σ r : ℕ)))]
  exact le_antisymm
    (Finset.le_sup'
      (fun τ : Equiv.Perm (Fin n) =>
        ∑ r : Fin n, padded_overall_qual iou gt_instances det_instances
          scd_mode (r : ℕ) ((τ r : ℕ)))
      (Finset.mem_univ σ))
    (Finset.sup'_le _ _ fun τ _ => hopt τ)

/-- C1 witness: a one-object map with a perfectly matching detection. -/
theorem overall_is_max_matching_witness :
    (_calc_qual_map (fun _ _ => 1) [⟨0, [], [], .added⟩]
      [⟨[], [], [1, 0], [1, 0, 0]⟩] false).overall =
      Finset.univ.sup' Finset.univ_nonempty
        (fun σ : Equiv.Perm
            (Fin (max ([(⟨0, [], [], .added⟩ : GtInstance)]).length
              ([(⟨[], [], [1, 0], [1, 0, 0]⟩ : DetInstance)]).length)) =>
          ∑ r : Fin (max ([(⟨0, [], [], .added⟩ : GtInstance)]).length
              ([(⟨[], [], [1, 0], [1, 0, 0]⟩ : DetInstance)]).length),
            padded_overall_qual (fun _ _ => 1) [⟨0, [], [], .added⟩]
              [⟨[], [], [1, 0], [1, 0, 0]⟩] false (r : ℕ) ((σ r : ℕ))) :=
  overall_is_max_matching (fun _ _ => 1) [⟨0, [], [], .added⟩]
    [⟨[], [], [1, 0], [1, 0, 0]⟩] false (by simp) (by simp)

/-- C2: for a map with ground truths and detections, every real row and every
real column of the padded cost table is matched exactly once and classified
exactly once: `TP + FN = g` and `TP + FP = d`. -/
theorem tp_fp_fn_partition (iou : Box → Box → ℝ)
    (gt_instances : List GtInstance) (det_instances : List DetInstance)
    (scd_mode : Bool) (hg : 0 < gt_instances.length)
    (hd : 0 < det_instances.length) :
    (_calc_qual_map iou gt_instances det_instances scd_mode).TP +
      (_calc_qual_map iou gt_instances det_instances scd_mode).FN
        = gt_instances.length ∧
    (_calc_qual_map iou gt_instances det_instances scd_mode).TP +
      (_calc_qual_map iou gt_instances det_instances scd_mode).FP
        = det_instances.length := by
  have hne : ¬(gt_instances.length = 0 ∨ det_instances.length = 0) := by
    push_neg
    exact ⟨Nat.pos_iff_ne_zero.mp hg, Nat.pos_iff_ne_zero.mp hd⟩
  simp only [calc_qual_map_pos_eq iou gt_instances det_instances scd_mode hne]
  set n := max gt_instances.length det_instances.length with hn
  set T := _gen_cost_tables iou gt_instances det_instances scd_mode with hT
  set σ := linear_sum_assignment fun r c : Fin n => T.overall r c with hσ
  have hzero : ∀ r c : Fin n,
      ¬((r : ℕ) < gt_instances.length ∧ (c : ℕ) < det_instances.length) →
      1 - T.overall (r : ℕ) (c : ℕ) = 0 := by
    intro r c h
    rw [hT, one_sub_overall_cost]
    simp only [padded_overall_qual]
    rw [if_neg h]
  have himp_row : ∀ r : Fin n, 0 < 1 - T.overall (r : ℕ) ((σ r : ℕ)) →
      (r : ℕ) < gt_instances.length := by
    intro r hp
    by_contra hr
    rw [hzero r (σ r) fun hc => hr hc.1] at hp
    exact lt_irrefl 0 hp
  have himp_col : ∀ r : Fin n, 0 < 1 - T.overall (r : ℕ) ((σ r : ℕ)) →
      ((σ r : ℕ)) < det_instances.length := by
    intro r hp
    by_contra hc
    rw [hzero r (σ r) fun hx => hc hx.2] at hp
    exact lt_irrefl 0 hp
  constructor
  · have h1 : (Finset.univ.filter
        (fun r : Fin n => 0 < 1 - T.overall (r : ℕ) ((σ r : ℕ)))) =
        ((Finset.univ.filter fun r : Fin n => (r : ℕ) < gt_instances.length).filter
          fun r : Fin n => 0 < 1 - T.overall (r : ℕ) ((σ r : ℕ))) := by
      rw [Finset.filter_filter]
      apply Finset.filter_congr
      intro r _
      exact ⟨fun hp => ⟨himp_row r hp, hp⟩, And.right⟩
    have h2 : (Finset.univ.filter
        (fun r : Fin n => ¬0 < 1 - T.overall (r : ℕ) ((σ r : ℕ)) ∧
          (r : ℕ) < gt_instances.length)) =
        ((Finset.univ.filter fun r : Fin n => (r : ℕ) < gt_instances.length).filter
          fun r : Fin n => ¬0 < 1 - T.overall (r : ℕ) ((σ r : ℕ))) := by
      rw [Finset.filter_filter]
      apply Finset.filter_congr
      intro r _
      exact and_comm
    rw [h1, h2, Finset.filter_card_add_filter_neg_card_eq_card,
      card_filter_coe_lt n gt_instances.length (le_max_left _ _)]
  · have h1 : (Finset.univ.filter
        (fun r : Fin n => 0 < 1 - T.overall (r : ℕ) ((σ r : ℕ)))) =
        ((Finset.univ.filter
            fun r : Fin n => ((σ r : ℕ)) < det_instances.length).filter
          fun r : Fin n => 0 < 1 - T.overall (r : ℕ) ((σ r : ℕ))) := by
      rw [Finset.filter_filter]
      apply Finset.filter_congr
      intro r _
      exact ⟨fun hp => ⟨himp_col r hp, hp⟩, And.right⟩
    have h2 : (Finset.univ.filter
        (fun r : Fin n => ¬0 < 1 - T.overall (r : ℕ) ((σ r : ℕ)) ∧
          ((σ r : ℕ)) < det_instances.length)) =
        ((Finset.univ.filter
            fun r : Fin n => ((σ r : ℕ)) < det_instances.length).filter
          fun r : Fin n => ¬0 < 1 - T.overall (r : ℕ) ((σ r : ℕ))) := by
      rw [Finset.filter_filter]
      apply Finset.filter_congr
      intro r _
      exact and_comm
    have hcard_d : (Finset.univ.filter
        fun r : Fin n => ((σ r : ℕ)) < det_instances.length).card
          = det_instances.length := by
      have hb : (Finset.univ.filter
          fun r : Fin n => ((σ r : ℕ)) < det_instances.length).card
            = (Finset.univ.filter
              fun c : Fin n => (c : ℕ) < det_instances.length).card := by
        apply Finset.card_bij (fun r _ => σ r)
        · intro a ha
          rw [Finset.mem_filter] at ha ⊢
          exact ⟨Finset.mem_univ _, ha.2⟩
        · intro a _ b _ hab
          exact σ.injective hab
        · intro b hb
          refine ⟨σ.symm b, ?_, Equiv.apply_symm_apply σ b⟩
          rw [Finset.mem_filter] at hb ⊢
          refine ⟨Finset.mem_univ _, ?_⟩
          rw [Equiv.apply_symm_apply]
          exact hb.2
      rw [hb, card_filter_coe_lt n det_instances.length (le_max_right _ _)]
    rw [h1, h2, Finset.filter_card_add_filter_neg_card_eq_card, hcard_d]

/-- C2 witness: a one-object map with one detection. -/
theorem tp_fp_fn_partition_witness :
    (_calc_qual_map (fun _ _ => 1) [⟨0, [], [], .added⟩]
      [⟨[], [], [1, 0], [1, 0, 0]⟩] false).TP +
      (_calc_qual_map (fun _ _ => 1) [⟨0, [], [], .added⟩]
        [⟨[], [], [1, 0], [1, 0, 0]⟩] false).FN
        = ([(⟨0, [], [], .added⟩ : GtInstance)]).length ∧
    (_calc_qual_map (fun _ _ => 1) [⟨0, [], [], .added⟩]
      [⟨[], [], [1, 0], [1, 0, 0]⟩] false).TP +
      (_calc_qual_map (fun _ _ => 1) [⟨0, [], [], .added⟩]
        [⟨[], [], [1, 0], [1, 0, 0]⟩] false).FP
        = ([(⟨[], [], [1, 0], [1, 0, 0]⟩ : DetInstance)]).length :=
  tp_fp_fn_partition (fun _ _ => 1) [⟨0, [], [], .added⟩]
    [⟨[], [], [1, 0], [1, 0, 0]⟩] false (by simp) (by simp)

/-- The false-positive cost of one detection, spelled with the explicit
geometric-mean closed form. -/
theorem fp_cost_of_eq (scd_mode : Bool) (det : DetInstance) :
    _fp_cost_of scd_mode det =
      if scd_mode then
        (np_max det.prob_dist.dropLast * np_max det.state_probs.dropLast)
          ^ ((1 : ℝ) / 2)
      else np_max det.prob_dist.dropLast := by
  cases scd_mode with
  | false => rfl
  | true =>
    show gmean [np_max det.prob_dist.dropLast, np_max det.state_probs.dropLast]
      = (np_max det.prob_dist.dropLast * np_max det.state_probs.dropLast)
          ^ ((1 : ℝ) / 2)
    exact gmean_pair _ _

/-- C6: for a non-empty map the FP cost sum is the sum, over exactly the
detections classified as false positives by the optimal assignment, of: the
geometric mean of the maximum label probability excluding the background
class and the maximum state probability excluding "constant" in scene-change
mode, and just the maximum non-background label probability otherwise. -/
theorem fp_cost_formula (iou : Box → Box → ℝ)
    (gt_instances : List GtInstance) (det_instances : List DetInstance)
    (scd_mode : Bool) (hg : 0 < gt_instances.length)
    (hd : 0 < det_instances.length) :
    (_calc_qual_map iou gt_instances det_instances scd_mode).fp_cost =
      (∑ r ∈ Finset.univ.filter
          (fun r : Fin (max gt_instances.length det_instances.length) =>
            ¬0 < 1 - (_gen_cost_tables iou gt_instances det_instances
                scd_mode).overall (r : ℕ)
                (((linear_sum_assignment fun r c :
                    Fin (max gt_instances.length det_instances.length) =>
                  (_gen_cost_tables iou gt_instances det_instances
                    scd_mode).overall r c) r : ℕ)) ∧
              ((linear_sum_assignment fun r c :
                  Fin (max gt_instances.length det_instances.length) =>
                (_gen_cost_tables iou gt_instances det_instances
                  scd_mode).overall r c) r : ℕ) < det_instances.length),
        (if scd_mode then
          (np_max ((det_instances.getD
              (((linear_sum_assignment fun r c :
                  Fin (max gt_instances.length det_instances.length) =>
                (_gen_cost_tables iou gt_instances det_instances
                  scd_mode).overall r c) r : ℕ)) default).prob_dist.dropLast) *
            np_max ((det_instances.getD
              (((linear_sum_assignment fun r c :
                  Fin (max gt_instances.length det_instances.length) =>
                (_gen_cost_tables iou gt_instances det_instances
                  scd_mode).overall r c) r : ℕ)) default).state_probs.dropLast))
            ^ ((1 : ℝ) / 2)
        else
          np_max ((det_instances.getD
              (((linear_sum_assignment fun r c :
                  Fin (max gt_instances.length det_instances.length) =>
                (_gen_cost_tables iou gt_instances det_instances
                  scd_mode).overall r c) r : ℕ)) default).prob_dist.dropLast))) ∧
    (_calc_qual_map iou gt_instances det_instances scd_mode).FP =
      (Finset.univ.filter
        (fun r : Fin (max gt_instances.length det_instances.length) =>
          ¬0 < 1 - (_gen_cost_tables iou gt_instances det_instances
              scd_mode).overall (r : ℕ)
              (((linear_sum_assignment fun r c :
                  Fin (max gt_instances.length det_instances.length) =>
                (_gen_cost_tables iou gt_instances det_instances
                  scd_mode).overall r c) r : ℕ)) ∧
            ((linear_sum_assignment fun r c :
                Fin (max gt_instances.length det_instances.length) =>
              (_gen_cost_tables iou gt_instances det_instances
                scd_mode).overall r c) r : ℕ) < det_instances.length)).card := by
  have hne : ¬(gt_instances.length = 0 ∨ det_instances.length = 0) := by
    push_neg
    exact ⟨Nat.pos_iff_ne_zero.mp hg, Nat.pos_iff_ne_zero.mp hd⟩
  simp only [calc_qual_map_pos_eq iou gt_instances det_instances scd_mode hne]
  exact ⟨Finset.sum_congr rfl fun r _ => fp_cost_of_eq scd_mode _, by trivial⟩

/-- C6 witness: a one-object map with one detection whose box does not overlap
the ground truth (IoU collaborator returns 0), in normal mode. -/
theorem fp_cost_formula_witness :
    (_calc_qual_map (fun _ _ => 0) [⟨0, [], [], .added⟩]
      [⟨[], [], [1, 0], [1, 0, 0]⟩] false).fp_cost =
      (∑ r ∈ Finset.univ.filter
          (fun r : Fin (max ([(⟨0, [], [], .added⟩ : GtInstance)]).length
              ([(⟨[], [], [1, 0], [1, 0, 0]⟩ : DetInstance)]).length) =>
            ¬0 < 1 - (_gen_cost_tables (fun _ _ => 0) [⟨0, [], [], .added⟩]
                [⟨[], [], [1, 0], [1, 0, 0]⟩] false).overall (r : ℕ)
                (((linear_sum_assignment fun r c :
                    Fin (max ([(⟨0, [], [], .added⟩ : GtInstance)]).length
                      ([(⟨[], [], [1, 0], [1, 0, 0]⟩ : DetInstance)]).length) =>
                  (_gen_cost_tables (fun _ _ => 0) [⟨0, [], [], .added⟩]
                    [⟨[], [], [1, 0], [1, 0, 0]⟩] false).overall r c) r : ℕ)) ∧
              ((linear_sum_assignment fun r c :
                  Fin (max ([(⟨0, [], [], .added⟩ : GtInstance)]).length
                    ([(⟨[], [], [1, 0], [1, 0, 0]⟩ : DetInstance)]).length) =>
                (_gen_cost_tables (fun _ _ => 0) [⟨0, [], [], .added⟩]
                  [⟨[], [], [1, 0], [1, 0, 0]⟩] false).overall r c) r : ℕ)
                < ([(⟨[], [], [1, 0], [1, 0, 0]⟩ : DetInstance)]).length),
        np_max (([(⟨[], [], [1, 0], [1, 0, 0]⟩ : DetInstance)]).getD
            (((linear_sum_assignment fun r c :
                Fin (max ([(⟨0, [], [], .added⟩ : GtInstance)]).length
                  ([(⟨[], [], [1, 0], [1, 0, 0]⟩ : DetInstance)]).length) =>
              (_gen_cost_tables (fun _ _ => 0) [⟨0, [], [], .added⟩]
                [⟨[], [], [1, 0], [1, 0, 0]⟩] false).overall r c) r : ℕ))
            default).prob_dist.dropLast) ∧
    (_calc_qual_map (fun _ _ => 0) [⟨0, [], [], .added⟩]
      [⟨[], [], [1, 0], [1, 0, 0]⟩] false).FP =
      (Finset.univ.filter
        (fun r : Fin (max ([(⟨0, [], [], .added⟩ : GtInstance)]).length
            ([(⟨[], [], [1, 0], [1, 0, 0]⟩ : DetInstance)]).length) =>
          ¬0 < 1 - (_gen_cost_tables (fun _ _ => 0) [⟨0, [], [], .added⟩]
              [⟨[], [], [1, 0], [1, 0, 0]⟩] false).overall (r : ℕ)
              (((linear_sum_assignment fun r c :
                  Fin (max ([(⟨0, [], [], .added⟩ : GtInstance)]).length
                    ([(⟨[], [], [1, 0], [1, 0, 0]⟩ : DetInstance)]).length) =>
                (_gen_cost_tables (fun _ _ => 0) [⟨0, [], [], .added⟩]
                  [⟨[], [], [1, 0], [1, 0, 0]⟩] false).overall r c) r : ℕ)) ∧
            ((linear_sum_assignment fun r c :
                Fin (max ([(⟨0, [], [], .added⟩ : GtInstance)]).length
                  ([(⟨[], [], [1, 0], [1, 0, 0]⟩ : DetInstance)]).length) =>
              (_gen_cost_tables (fun _ _ => 0) [⟨0, [], [], .added⟩]
                [⟨[], [], [1, 0], [1, 0, 0]⟩] false).overall r c) r : ℕ)
              < ([(⟨[], [], [1, 0], [1, 0, 0]⟩ : DetInstance)]).length)).card :=
  fp_cost_formula (fun _ _ => 0) [⟨0, [], [], .added⟩]
    [⟨[], [], [1, 0], [1, 0, 0]⟩] false (by simp) (by simp)

/-! ### C3/C9: entry bounds of the quality matrices -/

theorem calc_overall_qual_none (label_qual spatial_qual : ℕ → ℕ → ℝ) (i j : ℕ) :
    _calc_overall_qual label_qual spatial_qual none i j =
      gmean [label_qual i j, spatial_qual i j] := rfl

theorem calc_overall_qual_some (label_qual spatial_qual s : ℕ → ℕ → ℝ) (i j : ℕ) :
    _calc_overall_qual label_qual spatial_qual (some s) i j =
      gmean [label_qual i j, spatial_qual i j, s i j] := rfl

theorem label_qual_mem_unit (gt_instances : List GtInstance)
    (det_instances : List DetInstance) (scd_mode : Bool)
    (hprob : ∀ det ∈ det_instances, ∀ p ∈ det.prob_dist, 0 ≤ p ∧ p ≤ 1)
    (i j : ℕ) :
    0 ≤ _calc_label_qual (_vectorize_map_gts gt_instances scd_mode).2.1
        (_vectorize_map_dets det_instances scd_mode).2.1 i j ∧
      _calc_label_qual (_vectorize_map_gts gt_instances scd_mode).2.1
        (_vectorize_map_dets det_instances scd_mode).2.1 i j ≤ 1 := by
  show 0 ≤ ((det_instances.map fun d => d.prob_dist).getD j []).getD
      ((gt_instances.map fun g => g.class_id).getD i 0) 0 ∧
    ((det_instances.map fun d => d.prob_dist).getD j []).getD
      ((gt_instances.map fun g => g.class_id).getD i 0) 0 ≤ 1
  apply getD_getD_mem_unit
  intro l hl p hp
  rw [List.mem_map] at hl
  obtain ⟨det, hdet, rfl⟩ := hl
  exact hprob det hdet p hp

theorem state_entry_mem_unit (gt_instances : List GtInstance)
    (det_instances : List DetInstance)
    (hstate : ∀ det ∈ det_instances, ∀ p ∈ det.state_probs, 0 ≤ p ∧ p ≤ 1)
    (i j : ℕ) :
    0 ≤ (((_vectorize_map_dets det_instances true).2.2).getD j []).getD
        (((gt_instances.map fun g => _STATE_IDS g.state).getD i 0)).toNat 0 ∧
      (((_vectorize_map_dets det_instances true).2.2).getD j []).getD
        (((gt_instances.map fun g => _STATE_IDS g.state).getD i 0)).toNat 0 ≤ 1 := by
  show 0 ≤ ((det_instances.map fun d => d.state_probs).getD j []).getD
      (((gt_instances.map fun g => _STATE_IDS g.state).getD i 0)).toNat 0 ∧
    ((det_instances.map fun d => d.state_probs).getD j []).getD
      (((gt_instances.map fun g => _STATE_IDS g.state).getD i 0)).toNat 0 ≤ 1
  apply getD_getD_mem_unit
  intro l hl p hp
  rw [List.mem_map] at hl
  obtain ⟨det, hdet, rfl⟩ := hl
  exact hstate det hdet p hp

/-- Every padded overall quality lies in `[0,1]` when the IoU collaborator and
the probability entries do. -/
theorem padded_qual_mem_unit (iou : Box → Box → ℝ)
    (gt_instances : List GtInstance) (det_instances : List DetInstance)
    (scd_mode : Bool)
    (hiou : ∀ b1 b2, 0 ≤ iou b1 b2 ∧ iou b1 b2 ≤ 1)
    (hprob : ∀ det ∈ det_instances, ∀ p ∈ det.prob_dist, 0 ≤ p ∧ p ≤ 1)
    (hstate : ∀ det ∈ det_instances, ∀ p ∈ det.state_probs, 0 ≤ p ∧ p ≤ 1)
    (r c : ℕ) :
    0 ≤ padded_overall_qual iou gt_instances det_instances scd_mode r c ∧
      padded_overall_qual iou gt_instances det_instances scd_mode r c ≤ 1 := by
  simp only [padded_overall_qual]
  by_cases h : r < gt_instances.length ∧ c < det_instances.length
  · rw [if_pos h]
    have hgne : gt_instances ≠ [] :=
      List.length_pos.mp (Nat.lt_of_le_of_lt (Nat.zero_le r) h.1)
    cases scd_mode with
    | false =>
      rw [state_change_qual_eq_none gt_instances _ hgne, calc_overall_qual_none]
      apply gmean_mem_unit
      intro x hx
      rcases List.mem_cons.mp hx with rfl | hx
      · exact label_qual_mem_unit gt_instances det_instances false hprob r c
      rcases List.mem_cons.mp hx with rfl | hx
      · exact hiou _ _
      · exact absurd hx (List.not_mem_nil x)
    | true =>
      rw [state_change_qual_eq_some gt_instances _ hgne, calc_overall_qual_some]
      apply gmean_mem_unit
      intro x hx
      rcases List.mem_cons.mp hx with rfl | hx
      · exact label_qual_mem_unit gt_instances det_instances true hprob r c
      rcases List.mem_cons.mp hx with rfl | hx
      · exact hiou _ _
      rcases List.mem_cons.mp hx with rfl | hx
      · exact state_entry_mem_unit gt_instances det_instances hstate r c
      · exact absurd hx (List.not_mem_nil x)
  · rw [if_neg h]
    norm_num

/-- C3: classification of each assigned pair `(r, σ r)` of the optimal
assignment of the overall cost table: a pair with positive overall quality
counts as one true positive; a pair with overall quality zero contributes one
false negative when its row is real (`r < g`) and one false positive when its
column is real (`σ r < d`) — both fire for the same pair when both sides are
real with combined quality exactly zero. -/
theorem classification_policy (iou : Box → Box → ℝ)
    (gt_instances : List GtInstance) (det_instances : List DetInstance)
    (scd_mode : Bool) (hg : 0 < gt_instances.length)
    (hd : 0 < det_instances.length)
    (hiou : ∀ b1 b2, 0 ≤ iou b1 b2 ∧ iou b1 b2 ≤ 1)
    (hprob : ∀ det ∈ det_instances, ∀ p ∈ det.prob_dist, 0 ≤ p ∧ p ≤ 1)
    (hstate : ∀ det ∈ det_instances, ∀ p ∈ det.state_probs, 0 ≤ p ∧ p ≤ 1) :
    (_calc_qual_map iou gt_instances det_instances scd_mode).TP =
      (Finset.univ.filter
        (fun r : Fin (max gt_instances.length det_instances.length) =>
          0 < padded_overall_qual iou gt_instances det_instances scd_mode
            (r : ℕ)
            (((linear_sum_assignment fun r c :
                Fin (max gt_instances.length det_instances.length) =>
              (_gen_cost_tables iou gt_instances det_instances
                scd_mode).overall r c) r : ℕ)))).card ∧
    (_calc_qual_map iou gt_instances det_instances scd_mode).FN =
      (Finset.univ.filter
        (fun r : Fin (max gt_instances.length det_instances.length) =>
          padded_overall_qual iou gt_instances det_instances scd_mode (r : ℕ)
            (((linear_sum_assignment fun r c :
                Fin (max gt_instances.length det_instances.length) =>
              (_gen_cost_tables iou gt_instances det_instances
                scd_mode).overall r c) r : ℕ)) = 0 ∧
          (r : ℕ) < gt_instances.length)).card ∧
    (_calc_qual_map iou gt_instances det_instances scd_mode).FP =
      (Finset.univ.filter
        (fun r : Fin (max gt_instances.length det_instances.length) =>
          padded_overall_qual iou gt_instances det_instances scd_mode (r : ℕ)
            (((linear_sum_assignment fun r c :
                Fin (max gt_instances.length det_instances.length) =>
              (_gen_cost_tables iou gt_instances det_instances
                scd_mode).overall r c) r : ℕ)) = 0 ∧
          ((linear_sum_assignment fun r c :
              Fin (max gt_instances.length det_instances.length) =>
            (_gen_cost_tables iou gt_instances det_instances
              scd_mode).overall r c) r : ℕ) < det_instances.length)).card := by
  have hne : ¬(gt_instances.length = 0 ∨ det_instances.length = 0) := by
    push_neg
    exact ⟨Nat.pos_iff_ne_zero.mp hg, Nat.pos_iff_ne_zero.mp hd⟩
  simp only [calc_qual_map_pos_eq iou gt_instances det_instances scd_mode hne]
  have hpq := one_sub_overall_cost iou gt_instances det_instances scd_mode
  have hnn : ∀ r c : ℕ,
      0 ≤ padded_overall_qual iou gt_instances det_instances scd_mode r c :=
    fun r c => (padded_qual_mem_unit iou gt_instances det_instances scd_mode
      hiou hprob hstate r c).1
  refine ⟨?_, ?_, ?_⟩
  · congr 1
    apply Finset.filter_congr
    intro r _
    rw [hpq]
  · congr 1
    apply Finset.filter_congr
    intro r _
    rw [hpq]
    constructor
    · rintro ⟨h1, h2⟩
      exact ⟨le_antisymm (not_lt.mp h1) (hnn _ _), h2⟩
    · rintro ⟨h1, h2⟩
      refine ⟨?_, h2⟩
      rw [h1]
      exact lt_irrefl 0
  · congr 1
    apply Finset.filter_congr
    intro r _
    rw [hpq]
    constructor
    · rintro ⟨h1, h2⟩
      exact ⟨le_antisymm (not_lt.mp h1) (hnn _ _), h2⟩
    · rintro ⟨h1, h2⟩
      refine ⟨?_, h2⟩
      rw [h1]
      exact lt_irrefl 0

/-- C3 witness: a one-object map with one perfectly classified detection. -/
theorem classification_policy_witness :
    (_calc_qual_map (fun _ _ => 1) [⟨0, [], [], .added⟩]
      [⟨[], [], [1, 0], [1, 0, 0]⟩] false).TP =
      (Finset.univ.filter
        (fun r : Fin (max ([(⟨0, [], [], .added⟩ : GtInstance)]).length
            ([(⟨[], [], [1, 0], [1, 0, 0]⟩ : DetInstance)]).length) =>
          0 < padded_overall_qual (fun _ _ => 1) [⟨0, [], [], .added⟩]
            [⟨[], [], [1, 0], [1, 0, 0]⟩] false (r : ℕ)
            (((linear_sum_assignment fun r c :
                Fin (max ([(⟨0, [], [], .added⟩ : GtInstance)]).length
                  ([(⟨[], [], [1, 0], [1, 0, 0]⟩ : DetInstance)]).length) =>
              (_gen_cost_tables (fun _ _ => 1) [⟨0, [], [], .added⟩]
                [⟨[], [], [1, 0], [1, 0, 0]⟩] false).overall r c) r : ℕ)))).card ∧
    (_calc_qual_map (fun _ _ => 1) [⟨0, [], [], .added⟩]
      [⟨[], [], [1, 0], [1, 0, 0]⟩] false).FN =
      (Finset.univ.filter
        (fun r : Fin (max ([(⟨0, [], [], .added⟩ : GtInstance)]).length
            ([(⟨[], [], [1, 0], [1, 0, 0]⟩ : DetInstance)]).length) =>
          padded_overall_qual (fun _ _ => 1) [⟨0, [], [], .added⟩]
            [⟨[], [], [1, 0], [1, 0, 0]⟩] false (r : ℕ)
            (((linear_sum_assignment fun r c :
                Fin (max ([(⟨0, [], [], .added⟩ : GtInstance)]).length
                  ([(⟨[], [], [1, 0], [1, 0, 0]⟩ : DetInstance)]).length) =>
              (_gen_cost_tables (fun _ _ => 1) [⟨0, [], [], .added⟩]
                [⟨[], [], [1, 0], [1, 0, 0]⟩] false).overall r c) r : ℕ)) = 0 ∧
          (r : ℕ) < ([(⟨0, [], [], .added⟩ : GtInstance)]).length)).card ∧
    (_calc_qual_map (fun _ _ => 1) [⟨0, [], [], .added⟩]
      [⟨[], [], [1, 0], [1, 0, 0]⟩] false).FP =
      (Finset.univ.filter
        (fun r : Fin (max ([(⟨0, [], [], .added⟩ : GtInstance)]).length
            ([(⟨[], [], [1, 0], [1, 0, 0]⟩ : DetInstance)]).length) =>
          padded_overall_qual (fun _ _ => 1) [⟨0, [], [], .added⟩]
            [⟨[], [], [1, 0], [1, 0, 0]⟩] false (r : ℕ)
            (((linear_sum_assignment fun r c :
                Fin (max ([(⟨0, [], [], .added⟩ : GtInstance)]).length
                  ([(⟨[], [], [1, 0], [1, 0, 0]⟩ : DetInstance)]).length) =>
              (_gen_cost_tables (fun _ _ => 1) [⟨0, [], [], .added⟩]
                [⟨[], [], [1, 0], [1, 0, 0]⟩] false).overall r c) r : ℕ)) = 0 ∧
          ((linear_sum_assignment fun r c :
              Fin (max ([(⟨0, [], [], .added⟩ : GtInstance)]).length
                ([(⟨[], [], [1, 0], [1, 0, 0]⟩ : DetInstance)]).length) =>
            (_gen_cost_tables (fun _ _ => 1) [⟨0, [], [], .added⟩]
              [⟨[], [], [1, 0], [1, 0, 0]⟩] false).overall r c) r : ℕ)
            < ([(⟨[], [], [1, 0], [1, 0, 0]⟩ : DetInstance)]).length)).card :=
  classification_policy (fun _ _ => 1) [⟨0, [], [], .added⟩]
    [⟨[], [], [1, 0], [1, 0, 0]⟩] false (by simp) (by simp)
    (fun b1 b2 => ⟨zero_le_one, le_refl 1⟩)
    (by
      intro det hdet p hp
      rw [List.mem_singleton] at hdet
      subst hdet
      fin_cases hp <;> norm_num)
    (by
      intro det hdet p hp
      rw [List.mem_singleton] at hdet
      subst hdet
      fin_cases hp <;> norm_num)

theorem gen_cost_tables_state_true (iou : Box → Box → ℝ)
    (gt_instances : List GtInstance) (det_instances : List DetInstance) :
    (_gen_cost_tables iou gt_instances det_instances true).state =
      fun r c =>
        if r < gt_instances.length ∧ c < det_instances.length then
          1 - ((_calc_state_change_qual
              (_vectorize_map_gts gt_instances true).2.2
              (_vectorize_map_dets det_instances true).2.2).getD
            fun _ _ => 0) r c
        else 1 := rfl

/-- C9: when the detection probability entries lie in `[0,1]` and the
spatial-overlap collaborator returns values in `[0,1]`, every entry of the
spatial, label, state (when present) and overall quality matrices lies in
`[0,1]`, and hence so does every entry of each of the four cost tables. -/
theorem quality_entries_in_unit_interval (iou : Box → Box → ℝ)
    (gt_instances : List GtInstance) (det_instances : List DetInstance)
    (scd_mode : Bool) (hg : 0 < gt_instances.length)
    (hd : 0 < det_instances.length)
    (hiou : ∀ b1 b2, 0 ≤ iou b1 b2 ∧ iou b1 b2 ≤ 1)
    (hprob : ∀ det ∈ det_instances, ∀ p ∈ det.prob_dist, 0 ≤ p ∧ p ≤ 1)
    (hstate : ∀ det ∈ det_instances, ∀ p ∈ det.state_probs, 0 ≤ p ∧ p ≤ 1)
    (i j : ℕ) :
    (0 ≤ _calc_spatial_qual iou (_vectorize_map_gts gt_instances scd_mode).1
        (_vectorize_map_dets det_instances scd_mode).1 i j ∧
      _calc_spatial_qual iou (_vectorize_map_gts gt_instances scd_mode).1
        (_vectorize_map_dets det_instances scd_mode).1 i j ≤ 1) ∧
    (0 ≤ _calc_label_qual (_vectorize_map_gts gt_instances scd_mode).2.1
        (_vectorize_map_dets det_instances scd_mode).2.1 i j ∧
      _calc_label_qual (_vectorize_map_gts gt_instances scd_mode).2.1
        (_vectorize_map_dets det_instances scd_mode).2.1 i j ≤ 1) ∧
    (∀ s, _calc_state_change_qual (_vectorize_map_gts gt_instances scd_mode).2.2
        (_vectorize_map_dets det_instances scd_mode).2.2 = some s →
      0 ≤ s i j ∧ s i j ≤ 1) ∧
    (i < gt_instances.length → j < det_instances.length →
      0 ≤ _calc_overall_qual
          (_calc_label_qual (_vectorize_map_gts gt_instances scd_mode).2.1
            (_vectorize_map_dets det_instances scd_mode).2.1)
          (_calc_spatial_qual iou (_vectorize_map_gts gt_instances scd_mode).1
            (_vectorize_map_dets det_instances scd_mode).1)
          (_calc_state_change_qual (_vectorize_map_gts gt_instances scd_mode).2.2
            (_vectorize_map_dets det_instances scd_mode).2.2) i j ∧
        _calc_overall_qual
          (_calc_label_qual (_vectorize_map_gts gt_instances scd_mode).2.1
            (_vectorize_map_dets det_instances scd_mode).2.1)
          (_calc_spatial_qual iou (_vectorize_map_gts gt_instances scd_mode).1
            (_vectorize_map_dets det_instances scd_mode).1)
          (_calc_state_change_qual (_vectorize_map_gts gt_instances scd_mode).2.2
            (_vectorize_map_dets det_instances scd_mode).2.2) i j ≤ 1) ∧
    (0 ≤ (_gen_cost_tables iou gt_instances det_instances scd_mode).overall i j ∧
      (_gen_cost_tables iou gt_instances det_instances scd_mode).overall i j ≤ 1) ∧
    (0 ≤ (_gen_cost_tables iou gt_instances det_instances scd_mode).spatial i j ∧
      (_gen_cost_tables iou gt_instances det_instances scd_mode).spatial i j ≤ 1) ∧
    (0 ≤ (_gen_cost_tables iou gt_instances det_instances scd_mode).label i j ∧
      (_gen_cost_tables iou gt_instances det_instances scd_mode).label i j ≤ 1) ∧
    (0 ≤ (_gen_cost_tables iou gt_instances det_instances scd_mode).state i j ∧
      (_gen_cost_tables iou gt_instances det_instances scd_mode).state i j ≤ 1) := by
  have hgne : gt_instances ≠ [] := List.length_pos.mp hg
  have hspat : ∀ i j : ℕ,
      0 ≤ _calc_spatial_qual iou (_vectorize_map_gts gt_instances scd_mode).1
          (_vectorize_map_dets det_instances scd_mode).1 i j ∧
        _calc_spatial_qual iou (_vectorize_map_gts gt_instances scd_mode).1
          (_vectorize_map_dets det_instances scd_mode).1 i j ≤ 1 :=
    fun i j => hiou _ _
  have hover : ∀ i j : ℕ, i < gt_instances.length → j < det_instances.length →
      0 ≤ _calc_overall_qual
          (_calc_label_qual (_vectorize_map_gts gt_instances scd_mode).2.1
            (_vectorize_map_dets det_instances scd_mode).2.1)
          (_calc_spatial_qual iou (_vectorize_map_gts gt_instances scd_mode).1
            (_vectorize_map_dets det_instances scd_mode).1)
          (_calc_state_change_qual (_vectorize_map_gts gt_instances scd_mode).2.2
            (_vectorize_map_dets det_instances scd_mode).2.2) i j ∧
        _calc_overall_qual
          (_calc_label_qual (_vectorize_map_gts gt_instances scd_mode).2.1
            (_vectorize_map_dets det_instances scd_mode).2.1)
          (_calc_spatial_qual iou (_vectorize_map_gts gt_instances scd_mode).1
            (_vectorize_map_dets det_instances scd_mode).1)
          (_calc_state_change_qual (_vectorize_map_gts gt_instances scd_mode).2.2
            (_vectorize_map_dets det_instances scd_mode).2.2) i j ≤ 1 := by
    intro i j hi hj
    have hp := padded_qual_mem_unit iou gt_instances det_instances scd_mode
      hiou hprob hstate i j
    simp only [padded_overall_qual] at hp
    rwa [if_pos ⟨hi, hj⟩] at hp
  refine ⟨hspat i j, label_qual_mem_unit _ _ _ hprob i j, ?_, hover i j, ?_, ?_, ?_, ?_⟩
  · intro s hs
    cases scd_mode with
    | false =>
      rw [state_change_qual_eq_none gt_instances _ hgne] at hs
      exact absurd hs (by simp)
    | true =>
      rw [state_change_qual_eq_some gt_instances _ hgne] at hs
      obtain rfl := Option.some.inj hs
      exact state_entry_mem_unit gt_instances det_instances hstate i j
  · simp only [gen_cost_tables_overall]
    by_cases h : i < gt_instances.length ∧ j < det_instances.length
    · rw [if_pos h]
      obtain ⟨h0, h1⟩ := hover i j h.1 h.2
      constructor <;> linarith
    · rw [if_neg h]
      norm_num
  · simp only [gen_cost_tables_spatial]
    by_cases h : i < gt_instances.length ∧ j < det_instances.length
    · rw [if_pos h]
      obtain ⟨h0, h1⟩ := hspat i j
      constructor <;> linarith
    · rw [if_neg h]
      norm_num
  · simp only [gen_cost_tables_label]
    by_cases h : i < gt_instances.length ∧ j < det_instances.length
    · rw [if_pos h]
      obtain ⟨h0, h1⟩ := label_qual_mem_unit gt_instances det_instances scd_mode
        hprob i j
      constructor <;> linarith
    · rw [if_neg h]
      norm_num
  · cases scd_mode with
    | false =>
      rw [gen_cost_tables_state_false]
      norm_num
    | true =>
      simp only [gen_cost_tables_state_true]
      by_cases h : i < gt_instances.length ∧ j < det_instances.length
      · rw [if_pos h, state_change_qual_eq_some gt_instances _ hgne,
          Option.getD_some]
        obtain ⟨h0, h1⟩ := state_entry_mem_unit gt_instances det_instances
          hstate i j
        constructor <;> linarith
      · rw [if_neg h]
        norm_num

/-- C9 witness: one ground truth and one detection in scene-change mode, with
the IoU collaborator constantly 1, at matrix cell (0, 0). -/
theorem quality_entries_in_unit_interval_witness :
    (0 ≤ _calc_spatial_qual (fun _ _ => 1)
        (_vectorize_map_gts [⟨0, [], [], .added⟩] true).1
        (_vectorize_map_dets [⟨[], [], [1, 0], [1, 0, 0]⟩] true).1 0 0 ∧
      _calc_spatial_qual (fun _ _ => 1)
        (_vectorize_map_gts [⟨0, [], [], .added⟩] true).1
        (_vectorize_map_dets [⟨[], [], [1, 0], [1, 0, 0]⟩] true).1 0 0 ≤ 1) ∧
    (0 ≤ _calc_label_qual (_vectorize_map_gts [⟨0, [], [], .added⟩] true).2.1
        (_vectorize_map_dets [⟨[], [], [1, 0], [1, 0, 0]⟩] true).2.1 0 0 ∧
      _calc_label_qual (_vectorize_map_gts [⟨0, [], [], .added⟩] true).2.1
        (_vectorize_map_dets [⟨[], [], [1, 0], [1, 0, 0]⟩] true).2.1 0 0 ≤ 1) ∧
    (∀ s, _calc_state_change_qual
        (_vectorize_map_gts [⟨0, [], [], .added⟩] true).2.2
        (_vectorize_map_dets [⟨[], [], [1, 0], [1, 0, 0]⟩] true).2.2 = some s →
      0 ≤ s 0 0 ∧ s 0 0 ≤ 1) ∧
    ((0 : ℕ) < ([(⟨0, [], [], .added⟩ : GtInstance)]).length →
      (0 : ℕ) < ([(⟨[], [], [1, 0], [1, 0, 0]⟩ : DetInstance)]).length →
      0 ≤ _calc_overall_qual
          (_calc_label_qual (_vectorize_map_gts [⟨0, [], [], .added⟩] true).2.1
            (_vectorize_map_dets [⟨[], [], [1, 0], [1, 0, 0]⟩] true).2.1)
          (_calc_spatial_qual (fun _ _ => 1)
            (_vectorize_map_gts [⟨0, [], [], .added⟩] true).1
            (_vectorize_map_dets [⟨[], [], [1, 0], [1, 0, 0]⟩] true).1)
          (_calc_state_change_qual
            (_vectorize_map_gts [⟨0, [], [], .added⟩] true).2.2
            (_vectorize_map_dets [⟨[], [], [1, 0], [1, 0, 0]⟩] true).2.2) 0 0 ∧
        _calc_overall_qual
          (_calc_label_qual (_vectorize_map_gts [⟨0, [], [], .added⟩] true).2.1
            (_vectorize_map_dets [⟨[], [], [1, 0], [1, 0, 0]⟩] true).2.1)
          (_calc_spatial_qual (fun _ _ => 1)
            (_vectorize_map_gts [⟨0, [], [], .added⟩] true).1
            (_vectorize_map_dets [⟨[], [], [1, 0], [1, 0, 0]⟩] true).1)
          (_calc_state_change_qual
            (_vectorize_map_gts [⟨0, [], [], .added⟩] true).2.2
            (_vectorize_map_dets [⟨[], [], [1, 0], [1, 0, 0]⟩] true).2.2) 0 0 ≤ 1) ∧
    (0 ≤ (_gen_cost_tables (fun _ _ => 1) [⟨0, [], [], .added⟩]
        [⟨[], [], [1, 0], [1, 0, 0]⟩] true).overall 0 0 ∧
      (_gen_cost_tables (fun _ _ => 1) [⟨0, [], [], .added⟩]
        [⟨[], [], [1, 0], [1, 0, 0]⟩] true).overall 0 0 ≤ 1) ∧
    (0 ≤ (_gen_cost_tables (fun _ _ => 1) [⟨0, [], [], .added⟩]
        [⟨[], [], [1, 0], [1, 0, 0]⟩] true).spatial 0 0 ∧
      (_gen_cost_tables (fun _ _ => 1) [⟨0, [], [], .added⟩]
        [⟨[], [], [1, 0], [1, 0, 0]⟩] true).spatial 0 0 ≤ 1) ∧
    (0 ≤ (_gen_cost_tables (fun _ _ => 1) [⟨0, [], [], .added⟩]
        [⟨[], [], [1, 0], [1, 0, 0]⟩] true).label 0 0 ∧
      (_gen_cost_tables (fun _ _ => 1) [⟨0, [], [], .added⟩]
        [⟨[], [], [1, 0], [1, 0, 0]⟩] true).label 0 0 ≤ 1) ∧
    (0 ≤ (_gen_cost_tables (fun _ _ => 1) [⟨0, [], [], .added⟩]
        [⟨[], [], [1, 0], [1, 0, 0]⟩] true).state 0 0 ∧
      (_gen_cost_tables (fun _ _ => 1) [⟨0, [], [], .added⟩]
        [⟨[], [], [1, 0], [1, 0, 0]⟩] true).state 0 0 ≤ 1) :=
  quality_entries_in_unit_interval (fun _ _ => 1) [⟨0, [], [], .added⟩]
    [⟨[], [], [1, 0], [1, 0, 0]⟩] true (by simp) (by simp)
    (fun b1 b2 => ⟨zero_le_one, le_refl 1⟩)
    (by
      intro det hdet p hp
      rw [List.mem_singleton] at hdet
      subst hdet
      fin_cases hp <;> norm_num)
    (by
      intro det hdet p hp
      rw [List.mem_singleton] at hdet
      subst hdet
      fin_cases hp <;> norm_num)
    0 0
